import Mathlib

/-!
Verification of the RAG chatbot core: a shallow embedding of
`backend/search_tools.py` (content-search tool, course-outline tool, tool
manager) and `backend/ai_generator.py` (the bounded multi-round generation
orchestrator), with theorems settling the specification claims.

Conventions of the embedding:
- Python exceptions are `Except.error`; a function that cannot raise returns
  a plain value.
- External collaborators (the vector store, the Anthropic client, the JSON
  decoder) are parameters: they are supplied as function-valued records or
  oracles, universally quantified in the theorems.
- Python truthiness on optional strings and integers is embedded explicitly
  (`none`, empty string and `0` are falsy).
-/

set_option maxHeartbeats 1000000

/-- Citation surfaced to the UI: display text plus optional link
(`search_tools.py`, `_format_results`). -/
structure Source where
  text : String
  link : Option String
deriving Repr, DecidableEq

/-- Metadata map of one content chunk, with the two keys the tool layer
reads (`course_title`, `lesson_number`); a missing key is `none`. -/
structure ChunkMeta where
  course_title : Option String
  lesson_number : Option Int
deriving Repr, DecidableEq

/-- Modelled from the spec: `SearchResults` is defined in `vector_store.py`,
which is not part of the sources under verification. Per the spec it is an
ordered sequence of (document, metadata, distance) triples, co-indexed, plus
an optional error string. Distance scores are never read by the tool layer
and are embedded as integers. -/
structure SearchResults where
  documents : List String
  metadata : List ChunkMeta
  distances : List Int
  error : Option String
deriving Repr, DecidableEq

/-- Modelled from the spec: per the spec, `is_empty()` is true iff the
document sequence has zero length and the error is unset. -/
def SearchResults.is_empty (r : SearchResults) : Bool :=
  r.documents.isEmpty && r.error.isNone

/-- Python truthiness of an optional string: `None` and `""` are falsy. -/
def pyTruthyStr : Option String → Bool
  | none => false
  | some s => !s.isEmpty

/-- Python truthiness of an optional integer: `None` and `0` are falsy. -/
def pyTruthyInt : Option Int → Bool
  | none => false
  | some n => n != 0

/-- Operations of the vector store consumed by `CourseSearchTool`
(`search`, `get_lesson_link`, `get_course_link`), supplied as an oracle. -/
structure StoreOps where
  search : String → Option String → Option Int → SearchResults
  get_lesson_link : String → Int → Option String
  get_course_link : String → Option String

/-- One row of `CourseSearchTool._format_results`: the bracketed context
header followed by the chunk text, and the parallel citation entry. -/
def CourseSearchTool.formatRow (st : StoreOps) (doc : String) (meta : ChunkMeta) :
    String × Source :=
  let course_title := meta.course_title.getD "unknown"
  let lessonTag :=
    match meta.lesson_number with
    | some n => " - Lesson " ++ toString n
    | none => ""
  let header := "[" ++ course_title ++ lessonTag ++ "]"
  let source_text := course_title ++ lessonTag
  let link :=
    match meta.lesson_number with
    | some n => st.get_lesson_link course_title n
    | none => st.get_course_link course_title
  (header ++ "\n" ++ doc, { text := source_text, link := link })

/-- Embedding of `CourseSearchTool._format_results`: formats each
(document, metadata) pair and returns the formatted text together with the
new value of `last_sources` (which the Python method assigns). -/
def CourseSearchTool.format_results (st : StoreOps) (results : SearchResults) :
    String × List Source :=
  let rows := (results.documents.zip results.metadata).map
    (fun dm => CourseSearchTool.formatRow st dm.1 dm.2)
  (String.intercalate "\n\n" (rows.map Prod.fst), rows.map Prod.snd)

/-- Filter description added for a truthy course-name filter
(`execute`, the `if course_name:` branch). -/
def CourseSearchTool.course_filter_info (course_name : Option String) : String :=
  if pyTruthyStr course_name then
    " in course \x27" ++ course_name.getD "" ++ "\x27"
  else ""

/-- Filter description added for a truthy lesson-number filter
(`execute`, the `if lesson_number:` branch). -/
def CourseSearchTool.lesson_filter_info (lesson_number : Option Int) : String :=
  if pyTruthyInt lesson_number then
    " in lesson " ++ toString (lesson_number.getD 0)
  else ""

/-- Embedding of `CourseSearchTool.execute`: runs the store search, returns
the error text verbatim when the result carries a truthy error, a
"No relevant content found" message when the result is empty, and otherwise
the formatted rows. The second component is the value of the tool instance
field `last_sources` after the call (input = value before the call). -/
def CourseSearchTool.execute (st : StoreOps) (query : String)
    (course_name : Option String) (lesson_number : Option Int)
    (last_sources : List Source) : String × List Source :=
  let results := st.search query course_name lesson_number
  if pyTruthyStr results.error then
    (results.error.getD "", last_sources)
  else if results.is_empty then
    let filter_info :=
      CourseSearchTool.course_filter_info course_name
        ++ CourseSearchTool.lesson_filter_info lesson_number
    ("No relevant content found" ++ filter_info ++ ".", last_sources)
  else
    CourseSearchTool.format_results st results

/-- Catalog entry metadata read by `CourseOutlineTool.execute`; a missing
key is `none` and the Python `.get` defaults are applied at the use sites. -/
structure CatalogEntry where
  title : Option String
  instructor : Option String
  course_link : Option String
  lessons_json : Option String
deriving Repr, DecidableEq

/-- One deserialized lesson of the embedded lesson list. -/
structure LessonEntry where
  lesson_number : Option Int
  lesson_title : Option String
  lesson_link : Option String
deriving Repr, DecidableEq

/-- Operations consumed by `CourseOutlineTool`: course-name resolution
(modelled from the spec: `_resolve_course_name` in `vector_store.py` returns
the closest catalog title or `none`, and does not raise), the catalog
point lookup (`course_catalog.get`, which may raise, and whose falsy/empty
`metadatas` outcome is `none`), and the JSON lesson-list decoder
(`json.loads`, which may raise). -/
structure OutlineStoreOps where
  resolve_course_name : String → Option String
  catalog_get : String → Except String (Option CatalogEntry)
  parse_lessons : String → Except String (List LessonEntry)

/-- Rendering of one lesson line of the outline output. -/
def CourseOutlineTool.formatLesson (l : LessonEntry) : String :=
  (match l.lesson_number with
   | some n => toString n
   | none => "?")
    ++ ". " ++ l.lesson_title.getD "Untitled"
    ++ "\n   Link: " ++ l.lesson_link.getD "No link available" ++ "\n"

/-- Body of the `try:` block of `CourseOutlineTool.execute`: catalog lookup,
lesson-list deserialization and output rendering; any `Except.error` it
produces models a raised exception inside the `try`. -/
def CourseOutlineTool.outline_body (st : OutlineStoreOps)
    (course_name course_title : String) : Except String String := do
  let entry ← st.catalog_get course_title
  match entry with
  | none =>
    pure ("No course found matching \x27" ++ course_name ++ "\x27.")
  | some metadata => do
    let lessons ← st.parse_lessons (metadata.lessons_json.getD "[]")
    let header := "Course: " ++ metadata.title.getD "Unknown" ++ "\n"
      ++ "Instructor: " ++ metadata.instructor.getD "Not specified" ++ "\n"
      ++ "Course Link: " ++ metadata.course_link.getD "Not available"
      ++ "\n\nLessons:\n"
    pure (header ++ String.join (lessons.map CourseOutlineTool.formatLesson))

/-- Embedding of `CourseOutlineTool.execute`: resolves the course name, runs
the try-block body, and catches any exception of the body, rendering it as
an error string. An `Except.error` of this function would model an
exception escaping `execute`. -/
def CourseOutlineTool.execute (st : OutlineStoreOps) (course_name : String) :
    Except String String :=
  match st.resolve_course_name course_name with
  | none =>
    .ok ("No course found matching \x27" ++ course_name
      ++ "\x27. Please try a different course name or check available courses.")
  | some course_title =>
    match CourseOutlineTool.outline_body st course_name course_title with
    | .ok s => .ok s
    | .error e => .ok ("Error retrieving course outline: " ++ e)

/-- Registry view of one registered tool: its name and its `last_sources`
side channel; `none` models a tool without the `last_sources` attribute
(so `hasattr` is false), `some l` a tool whose attribute holds `l`. -/
structure MTool where
  name : String
  last_sources : Option (List Source)
deriving Repr, DecidableEq

/-- Embedding of `ToolManager.get_last_sources`: scan the registered tools
in registration order and return the first truthy (non-empty) `last_sources`
value, or the empty list. -/
def ToolManager.get_last_sources : List MTool → List Source
  | [] => []
  | t :: ts =>
    match t.last_sources with
    | some ss => if ss.isEmpty then ToolManager.get_last_sources ts else ss
    | none => ToolManager.get_last_sources ts

/-- Embedding of `ToolManager.reset_sources`: set `last_sources` to the
empty list on every tool that has the attribute. -/
def ToolManager.reset_sources (ts : List MTool) : List MTool :=
  ts.map fun t =>
    match t.last_sources with
    | some _ => { t with last_sources := some [] }
    | none => t

/-- Predicate: a registered tool currently offers no sources (no attribute,
or an empty list). -/
def MTool.noSources (t : MTool) : Prop :=
  t.last_sources = none ∨ t.last_sources = some []

/-- Decidable substring occurrence over character lists. -/
def listHasSub : List Char → List Char → Bool
  | [], sub => sub.isEmpty
  | a :: l, sub => sub.isPrefixOf (a :: l) || listHasSub l sub

/-- Decidable substring occurrence on strings, used to state that a rendered
message does or does not name a filter. -/
def strHasSub (s sub : String) : Bool :=
  listHasSub s.data sub.data

/-- Content block of a model response, embedded as a duck-typed record
carrying every attribute the orchestrator reads (`type`, `id`, `name`,
`input`, `text`); this mirrors how the repository itself mocks response
blocks. A tool invocation is a block with `type = "tool_use"`. -/
structure ContentBlock where
  type : String
  id : String
  name : String
  input : List (String × String)
  text : String
deriving Repr, DecidableEq

/-- Model response: termination signal plus ordered content blocks. -/
structure ModelResponse where
  stop_reason : String
  content : List ContentBlock
deriving Repr, DecidableEq

/-- Tool-result block echoed back to the model
(`ai_generator.py`, the `tool_result` dicts). -/
structure ToolResultBlock where
  type : String
  tool_use_id : String
  content : String
deriving Repr, DecidableEq

/-- Content of one conversation message: the plain user query, an assistant
content-block list appended verbatim, or a list of tool-result blocks. -/
inductive MsgContent where
  | text (s : String)
  | blocks (bs : List ContentBlock)
  | results (rs : List ToolResultBlock)
deriving Repr, DecidableEq

/-- Conversation message: role plus content. -/
structure Message where
  role : String
  content : MsgContent
deriving Repr, DecidableEq

/-- The initial user message holding the query. -/
def userText (s : String) : Message :=
  { role := "user", content := .text s }

/-- The assistant message carrying a tool-requesting response verbatim. -/
def assistantMsg (bs : List ContentBlock) : Message :=
  { role := "assistant", content := .blocks bs }

/-- The user message bundling a round of tool results. -/
def userResults (rs : List ToolResultBlock) : Message :=
  { role := "user", content := .results rs }

/-- Behavior of `tool_manager.execute_tool`: name and argument map to either
a result string or a raised exception. -/
abbrev ToolExec : Type :=
  String → List (String × String) → Except String String

/-- One executed tool invocation (name and arguments), recorded in order. -/
abbrev ToolInv : Type :=
  String × List (String × String)

/-- Record of one model call: the message history submitted and whether the
tool catalog was attached. -/
structure CallRecord where
  messages : List Message
  toolsEnabled : Bool
deriving Repr, DecidableEq

/-- Which return or raise site of `generate_response` ended the run. -/
inductive ExitKind where
  | directAnswer
  | noToolManager
  | apiRaise
  | forcedOk
  | forcedRaise
  | fallback
  | indexErr
  | noResponse
deriving Repr, DecidableEq

/-- Observable trace of one `generate_response` run: the model calls made in
order, the tool invocations executed in order, the final value of
`round_count`, the exit site, and the returned text or raised error. -/
structure RunTrace where
  calls : List CallRecord
  toolExecs : List ToolInv
  rounds : Nat
  exit : ExitKind
  result : Except String String
deriving Repr

/-- Embedding of the tool-execution loop of `_execute_and_append_tools`:
walk the content blocks in order, execute each `tool_use` block, and either
collect one tool-result block per invocation or stop at the first raising
invocation, returning the raised message together with the invocations
executed up to and including it. -/
def runTools (exec : ToolExec) :
    List ContentBlock → Except (String × List ToolInv) (List ToolResultBlock × List ToolInv)
  | [] => .ok ([], [])
  | b :: bs =>
    if b.type = "tool_use" then
      match exec b.name b.input with
      | .error e => .error (e, [(b.name, b.input)])
      | .ok r =>
        match runTools exec bs with
        | .ok (rs, invs) =>
          .ok ({ type := "tool_result", tool_use_id := b.id, content := r } :: rs,
            (b.name, b.input) :: invs)
        | .error (e, invs) => .error (e, (b.name, b.input) :: invs)
    else runTools exec bs

/-- Number of `tool_use` blocks in a content list. -/
def countToolUse (bs : List ContentBlock) : Nat :=
  (bs.filter (fun b => b.type = "tool_use")).length

/-- Trace of a run whose first model call was made on history `msgs` with
tool availability `ta`, executed `invs`, and continued as `rest`. -/
def consCall (msgs : List Message) (ta : Bool) (invs : List ToolInv)
    (rest : RunTrace) : RunTrace :=
  { calls := { messages := msgs, toolsEnabled := ta } :: rest.calls,
    toolExecs := invs ++ rest.toolExecs, rounds := rest.rounds,
    exit := rest.exit, result := rest.result }

/-- Embedding of the body of `AIGenerator.generate_response`, from the top
of the `while round_count < MAX_ROUNDS:` loop onward. The fuel argument is
`MAX_ROUNDS - round_count`; `callIdx` counts the model calls already made
(inside the loop it always equals `round_count`); `api k` is the outcome of
the `(k+1)`-th call to `_make_api_call` (its raised `ValueError` message or
its response); `lastResp` is the value of the Python variable `response`
from the previous iteration. The fuel-zero case embeds the code after the
loop: the forced tools-disabled synthesis when the last response still
requested tools, and the trailing fallback return otherwise. Accessing
`content[0]` of an empty content list is the raised `IndexError`. -/
def genLoop (api : Nat → Except String ModelResponse) (tm : Option ToolExec)
    (toolsArg : Bool) : Nat → Nat → List Message → Option ModelResponse → RunTrace
  | 0, callIdx, messages, lastResp =>
    match lastResp with
    | none =>
      { calls := [], toolExecs := [], rounds := callIdx, exit := .noResponse,
        result := .error "NameError: name response is not defined" }
    | some response =>
      if response.stop_reason = "tool_use" then
        match api callIdx with
        | .error e =>
          { calls := [{ messages := messages, toolsEnabled := false }],
            toolExecs := [], rounds := callIdx, exit := .forcedRaise,
            result := .error ("Error synthesizing final response: " ++ e) }
        | .ok fr =>
          match fr.content.head? with
          | none =>
            { calls := [{ messages := messages, toolsEnabled := false }],
              toolExecs := [], rounds := callIdx, exit := .indexErr,
              result := .error "IndexError: list index out of range" }
          | some b =>
            { calls := [{ messages := messages, toolsEnabled := false }],
              toolExecs := [], rounds := callIdx, exit := .forcedOk,
              result := .ok b.text }
      else
        match response.content.head? with
        | none =>
          { calls := [], toolExecs := [], rounds := callIdx, exit := .fallback,
            result := .ok "Error: No response generated" }
        | some b =>
          { calls := [], toolExecs := [], rounds := callIdx, exit := .fallback,
            result := .ok b.text }
  | fuel + 1, callIdx, messages, _ =>
    match api callIdx with
    | .error e =>
      { calls := [{ messages := messages, toolsEnabled := toolsArg }],
        toolExecs := [], rounds := callIdx, exit := .apiRaise, result := .error e }
    | .ok response =>
      if response.stop_reason ≠ "tool_use" then
        match response.content.head? with
        | none =>
          { calls := [{ messages := messages, toolsEnabled := toolsArg }],
            toolExecs := [], rounds := callIdx, exit := .indexErr,
            result := .error "IndexError: list index out of range" }
        | some b =>
          { calls := [{ messages := messages, toolsEnabled := toolsArg }],
            toolExecs := [], rounds := callIdx, exit := .directAnswer,
            result := .ok b.text }
      else
        match tm with
        | none =>
          match response.content.head? with
          | none =>
            { calls := [{ messages := messages, toolsEnabled := toolsArg }],
              toolExecs := [], rounds := callIdx, exit := .indexErr,
              result := .error "IndexError: list index out of range" }
          | some b =>
            { calls := [{ messages := messages, toolsEnabled := toolsArg }],
              toolExecs := [], rounds := callIdx, exit := .noToolManager,
              result := .ok b.text }
        | some exec =>
          match runTools exec response.content with
          | .ok (trs, invs) =>
            let messages2 :=
              if trs.isEmpty then messages ++ [assistantMsg response.content]
              else messages ++ [assistantMsg response.content, userResults trs]
            consCall messages toolsArg invs
              (genLoop api tm toolsArg fuel (callIdx + 1) messages2 (some response))
          | .error (e, invs) =>
            match response.content.head? with
            | none =>
              { calls := [{ messages := messages, toolsEnabled := toolsArg }],
                toolExecs := invs, rounds := callIdx, exit := .indexErr,
                result := .error "IndexError: list index out of range" }
            | some b0 =>
              let errRes : ToolResultBlock :=
                { type := "tool_result", tool_use_id := b0.id,
                  content := "Tool execution failed: " ++ e }
              let messages2 := messages
                ++ [assistantMsg response.content, assistantMsg response.content,
                  userResults [errRes]]
              consCall messages toolsArg invs
                (genLoop api tm toolsArg fuel (callIdx + 1) messages2 (some response))

/-- The fixed round limit of `generate_response`. -/
def MAX_ROUNDS : Nat := 2

/-- Embedding of `AIGenerator.generate_response`: one user message holding
the query, then the bounded tool-calling loop. `tm` is the optional tool
manager (its `execute_tool` behavior); `toolsArg` records whether a truthy
tool catalog was passed (it is forwarded unchanged to every in-loop call and
withheld on the forced-synthesis call). -/
def generate_response (api : Nat → Except String ModelResponse)
    (tm : Option ToolExec) (toolsArg : Bool) (query : String) : RunTrace :=
  genLoop api tm toolsArg MAX_ROUNDS 0 [userText query] none

/-- The tool-result blocks a fully successful round produces: one block per
`tool_use` block of the response, in content order, carrying that block's
invocation id and its execution result. -/
def successResults (exec : ToolExec) (bs : List ContentBlock) : List ToolResultBlock :=
  bs.filterMap fun b =>
    if b.type = "tool_use" then
      match exec b.name b.input with
      | .ok r => some { type := "tool_result", tool_use_id := b.id, content := r }
      | .error _ => none
    else none

/-- The tool invocations a response requests, in content order. -/
def invocationsOf (bs : List ContentBlock) : List ToolInv :=
  bs.filterMap fun b =>
    if b.type = "tool_use" then some (b.name, b.input) else none

/-- Every `tool_use` block of the list executes without raising. -/
def AllToolsOk (exec : ToolExec) (bs : List ContentBlock) : Prop :=
  ∀ b ∈ bs, b.type = "tool_use" → ∃ r, exec b.name b.input = .ok r

/-- The synthetic failure tool-result the exception handler of
`generate_response` builds: it carries the id of the response's first
content block and the text `"Tool execution failed: <message>"`. -/
def toolFailBlock (b0 : ContentBlock) (e : String) : ToolResultBlock :=
  { type := "tool_result", tool_use_id := b0.id,
    content := "Tool execution failed: " ++ e }

/-- The message history submitted to the model call after a round whose tool
execution raised `e`: the query, the assistant tool-request appended twice
(once inside `_execute_and_append_tools` before the raise, once again by the
exception handler), and the synthetic failure tool-result. -/
def failRoundHistory (q : String) (bs : List ContentBlock) (b0 : ContentBlock)
    (e : String) : List Message :=
  [userText q, assistantMsg bs, assistantMsg bs, userResults [toolFailBlock b0 e]]

/-! ## Concrete fixtures used to instantiate the theorems -/

/-- A concrete tool-invocation content block. -/
def wToolBlock : ContentBlock :=
  { type := "tool_use", id := "tool-1", name := "search_course_content",
    input := [("query", "MCP")], text := "" }

/-- A concrete text content block. -/
def wTextBlock : ContentBlock :=
  { type := "text", id := "", name := "", input := [], text := "final answer" }

/-- A concrete tool-requesting model response. -/
def wToolResp : ModelResponse :=
  { stop_reason := "tool_use", content := [wToolBlock] }

/-- A concrete direct-answer model response. -/
def wTextResp : ModelResponse :=
  { stop_reason := "end_turn", content := [wTextBlock] }

/-- A concrete model-call oracle answering from a fixed list. -/
def wApi (l : List (Except String ModelResponse)) : Nat → Except String ModelResponse :=
  fun k => l.getD k (.error "no call expected")

/-- A tool executor that always succeeds. -/
def wExecOk : ToolExec := fun _ _ => .ok "Tool result"

/-- A tool executor that always raises. -/
def wExecFail : ToolExec := fun _ _ => .error "Course not found"

/-- A store whose search always returns an empty, error-free result. -/
def wStoreEmpty : StoreOps :=
  { search := fun _ _ _ =>
      { documents := [], metadata := [], distances := [], error := none },
    get_lesson_link := fun _ _ => none, get_course_link := fun _ => none }

/-- A store whose search always returns an error result. -/
def wStoreErr : StoreOps :=
  { search := fun _ _ _ =>
      { documents := [], metadata := [], distances := [],
        error := some "No course found matching X" },
    get_lesson_link := fun _ _ => none, get_course_link := fun _ => none }

/-- A store whose search always returns one matching chunk. -/
def wStoreHit : StoreOps :=
  { search := fun _ _ _ =>
      { documents := ["chunk text"],
        metadata := [{ course_title := some "Course A", lesson_number := some 1 }],
        distances := [0], error := none },
    get_lesson_link := fun _ _ => some "lesson-link",
    get_course_link := fun _ => some "course-link" }

/-- An outline store whose catalog lookup raises. -/
def wOutlineRaise : OutlineStoreOps :=
  { resolve_course_name := fun _ => some "Course A",
    catalog_get := fun _ => .error "boom",
    parse_lessons := fun _ => .ok [] }

/-- A concrete citation. -/
def wSrc : Source := { text := "Course A - Lesson 1", link := some "lesson-link" }

/-- A registered tool with an empty source channel. -/
def wToolA : MTool := { name := "search_course_content", last_sources := some [] }

/-- A registered tool holding one source. -/
def wToolB : MTool := { name := "other_search", last_sources := some [wSrc] }

/-- A registered tool without the source channel. -/
def wToolC : MTool := { name := "get_course_outline", last_sources := none }

/-! ## Helper lemmas about the tool-execution loop -/

theorem runTools_count_zero (exec : ToolExec) :
    ∀ bs, countToolUse bs = 0 → runTools exec bs = .ok ([], []) := by
  intro bs
  induction bs with
  | nil => intro _; rfl
  | cons b l ih =>
    intro h
    by_cases hb : b.type = "tool_use"
    · exfalso
      simp [countToolUse, List.filter_cons, hb] at h
    · simp only [runTools, if_neg hb]
      apply ih
      simpa [countToolUse, List.filter_cons, hb] using h

theorem runTools_all_ok (exec : ToolExec) :
    ∀ bs, AllToolsOk exec bs →
      runTools exec bs = .ok (successResults exec bs, invocationsOf bs) := by
  intro bs
  induction bs with
  | nil => intro _; rfl
  | cons b l ih =>
    intro h
    have hl : AllToolsOk exec l := fun x hx hxt => h x (List.mem_cons_of_mem _ hx) hxt
    by_cases hb : b.type = "tool_use"
    · obtain ⟨r, hr⟩ := h b (List.mem_cons_self _ _) hb
      simp only [runTools, if_pos hb, hr, ih hl, successResults, invocationsOf,
        List.filterMap_cons, hb, if_pos]
    · simp only [runTools, if_neg hb, ih hl, successResults, invocationsOf,
        List.filterMap_cons, if_neg hb]

theorem invocationsOf_length :
    ∀ bs, (invocationsOf bs).length = countToolUse bs := by
  intro bs
  induction bs with
  | nil => rfl
  | cons b l ih =>
    by_cases hb : b.type = "tool_use" <;>
      simp [invocationsOf, countToolUse, List.filterMap_cons, List.filter_cons, hb] <;>
      simpa [invocationsOf, countToolUse] using ih

theorem successResults_length (exec : ToolExec) :
    ∀ bs, AllToolsOk exec bs →
      (successResults exec bs).length = countToolUse bs := by
  intro bs
  induction bs with
  | nil => intro _; rfl
  | cons b l ih =>
    intro h
    have hl : AllToolsOk exec l := fun x hx hxt => h x (List.mem_cons_of_mem _ hx) hxt
    by_cases hb : b.type = "tool_use"
    · obtain ⟨r, hr⟩ := h b (List.mem_cons_self _ _) hb
      simp [successResults, countToolUse, List.filterMap_cons, List.filter_cons, hb, hr]
      simpa [successResults, countToolUse] using ih hl
    · simp [successResults, countToolUse, List.filterMap_cons, List.filter_cons, hb]
      simpa [successResults, countToolUse] using ih hl

theorem runTools_ok_lengths (exec : ToolExec) :
    ∀ bs trs invs, runTools exec bs = .ok (trs, invs) →
      trs.length = countToolUse bs ∧ invs.length = countToolUse bs := by
  intro bs
  induction bs with
  | nil =>
    intro trs invs h
    simp only [runTools] at h
    cases h
    simp [countToolUse]
  | cons b l ih =>
    intro trs invs h
    by_cases hb : b.type = "tool_use"
    · rw [runTools, if_pos hb] at h
      cases hr : exec b.name b.input with
      | error e => rw [hr] at h; cases h
      | ok r =>
        rw [hr] at h
        cases hrl : runTools exec l with
        | error p => rw [hrl] at h; cases h
        | ok p =>
          obtain ⟨rs, is⟩ := p
          rw [hrl] at h
          cases h
          have hlen := ih rs is hrl
          simp only [countToolUse, List.filter_cons, hb] at hlen ⊢
          simp only [List.length_cons]
          rw [if_pos (by simp)]
          simp only [List.length_cons]
          exact ⟨by rw [hlen.1], by rw [hlen.2]⟩
    · rw [runTools, if_neg hb] at h
      have := ih trs invs h
      simpa [countToolUse, List.filter_cons, hb] using this

theorem runTools_error_single (exec : ToolExec) :
    ∀ bs, countToolUse bs = 1 → ∀ e invs, runTools exec bs = .error (e, invs) →
      invs.length = 1 := by
  intro bs
  induction bs with
  | nil => intro h; simp [countToolUse] at h
  | cons b l ih =>
    intro h e invs hrt
    by_cases hb : b.type = "tool_use"
    · have hl0 : countToolUse l = 0 := by
        simpa [countToolUse, List.filter_cons, hb] using h
      rw [runTools, if_pos hb] at hrt
      cases hr : exec b.name b.input with
      | error e0 =>
        rw [hr] at hrt
        cases hrt
        rfl
      | ok r =>
        rw [hr, runTools_count_zero exec l hl0] at hrt
        cases hrt
    · rw [runTools, if_neg hb] at hrt
      have hl : countToolUse l = 1 := by
        simpa [countToolUse, List.filter_cons, hb] using h
      exact ih hl e invs hrt

theorem countToolUse_pos_head (bs : List ContentBlock) (h : countToolUse bs ≠ 0) :
    ∃ b, bs.head? = some b := by
  cases bs with
  | nil => exfalso; exact h rfl
  | cons b l => exact ⟨b, rfl⟩

/-! ## Step lemmas for the orchestrator loop -/

theorem genLoop_succ_apiRaise (api : Nat → Except String ModelResponse)
    (tm : Option ToolExec) (ta : Bool) (fuel callIdx : Nat) (msgs : List Message)
    (last : Option ModelResponse) (e : String) (h : api callIdx = .error e) :
    genLoop api tm ta (fuel + 1) callIdx msgs last =
      { calls := [{ messages := msgs, toolsEnabled := ta }], toolExecs := [],
        rounds := callIdx, exit := .apiRaise, result := .error e } := by
  simp only [genLoop, h]

theorem genLoop_succ_direct (api : Nat → Except String ModelResponse)
    (tm : Option ToolExec) (ta : Bool) (fuel callIdx : Nat) (msgs : List Message)
    (last : Option ModelResponse) (r : ModelResponse) (b : ContentBlock)
    (h : api callIdx = .ok r) (hs : r.stop_reason ≠ "tool_use")
    (hb : r.content.head? = some b) :
    genLoop api tm ta (fuel + 1) callIdx msgs last =
      { calls := [{ messages := msgs, toolsEnabled := ta }], toolExecs := [],
        rounds := callIdx, exit := .directAnswer, result := .ok b.text } := by
  simp only [genLoop, h, hb]
  rw [if_pos hs]

theorem genLoop_succ_noTm (api : Nat → Except String ModelResponse)
    (ta : Bool) (fuel callIdx : Nat) (msgs : List Message)
    (last : Option ModelResponse) (r : ModelResponse) (b : ContentBlock)
    (h : api callIdx = .ok r) (hs : r.stop_reason = "tool_use")
    (hb : r.content.head? = some b) :
    genLoop api none ta (fuel + 1) callIdx msgs last =
      { calls := [{ messages := msgs, toolsEnabled := ta }], toolExecs := [],
        rounds := callIdx, exit := .noToolManager, result := .ok b.text } := by
  simp only [genLoop, h, hb]
  rw [if_neg (by simp [hs])]

theorem genLoop_succ_tools_ok (api : Nat → Except String ModelResponse)
    (exec : ToolExec) (ta : Bool) (fuel callIdx : Nat) (msgs : List Message)
    (last : Option ModelResponse) (r : ModelResponse)
    (trs : List ToolResultBlock) (invs : List ToolInv)
    (h : api callIdx = .ok r) (hs : r.stop_reason = "tool_use")
    (hrt : runTools exec r.content = .ok (trs, invs)) :
    genLoop api (some exec) ta (fuel + 1) callIdx msgs last =
      consCall msgs ta invs
        (genLoop api (some exec) ta fuel (callIdx + 1)
          (if trs.isEmpty then msgs ++ [assistantMsg r.content]
           else msgs ++ [assistantMsg r.content, userResults trs]) (some r)) := by
  simp only [genLoop, h, hrt]
  rw [if_neg (by simp [hs])]

theorem genLoop_succ_tools_err (api : Nat → Except String ModelResponse)
    (exec : ToolExec) (ta : Bool) (fuel callIdx : Nat) (msgs : List Message)
    (last : Option ModelResponse) (r : ModelResponse) (b0 : ContentBlock)
    (e : String) (invs : List ToolInv)
    (h : api callIdx = .ok r) (hs : r.stop_reason = "tool_use")
    (hrt : runTools exec r.content = .error (e, invs))
    (hb : r.content.head? = some b0) :
    genLoop api (some exec) ta (fuel + 1) callIdx msgs last =
      consCall msgs ta invs
        (genLoop api (some exec) ta fuel (callIdx + 1)
          (msgs ++ [assistantMsg r.content, assistantMsg r.content,
            userResults [ToolResultBlock.mk "tool_result" b0.id
              ("Tool execution failed: " ++ e)]]) (some r)) := by
  simp only [genLoop, h, hrt, hb]
  rw [if_neg (by simp [hs])]

theorem genLoop_zero_forcedRaise (api : Nat → Except String ModelResponse)
    (tm : Option ToolExec) (ta : Bool) (callIdx : Nat) (msgs : List Message)
    (r : ModelResponse) (e : String)
    (hs : r.stop_reason = "tool_use") (h : api callIdx = .error e) :
    genLoop api tm ta 0 callIdx msgs (some r) =
      { calls := [{ messages := msgs, toolsEnabled := false }], toolExecs := [],
        rounds := callIdx, exit := .forcedRaise,
        result := .error ("Error synthesizing final response: " ++ e) } := by
  simp only [genLoop, h, if_pos hs]

theorem genLoop_zero_forcedOk (api : Nat → Except String ModelResponse)
    (tm : Option ToolExec) (ta : Bool) (callIdx : Nat) (msgs : List Message)
    (r fr : ModelResponse) (b : ContentBlock)
    (hs : r.stop_reason = "tool_use") (h : api callIdx = .ok fr)
    (hb : fr.content.head? = some b) :
    genLoop api tm ta 0 callIdx msgs (some r) =
      { calls := [{ messages := msgs, toolsEnabled := false }], toolExecs := [],
        rounds := callIdx, exit := .forcedOk, result := .ok b.text } := by
  simp only [genLoop, h, hb, if_pos hs]

theorem genLoop_zero_shape (api : Nat → Except String ModelResponse)
    (tm : Option ToolExec) (ta : Bool) (callIdx : Nat) (msgs : List Message)
    (r : ModelResponse) (hs : r.stop_reason = "tool_use") :
    (genLoop api tm ta 0 callIdx msgs (some r)).calls =
        [{ messages := msgs, toolsEnabled := false }] ∧
      (genLoop api tm ta 0 callIdx msgs (some r)).toolExecs = [] ∧
      (genLoop api tm ta 0 callIdx msgs (some r)).rounds = callIdx := by
  simp only [genLoop, if_pos hs]
  cases hapi : api callIdx with
  | error e => simp
  | ok fr =>
    cases hb : fr.content.head? with
    | none => simp [hb]
    | some b => simp [hb]

theorem genLoop_succ_calls_head (api : Nat → Except String ModelResponse)
    (tm : Option ToolExec) (ta : Bool) (fuel callIdx : Nat) (msgs : List Message)
    (last : Option ModelResponse) :
    (genLoop api tm ta (fuel + 1) callIdx msgs last).calls.head? =
      some { messages := msgs, toolsEnabled := ta } := by
  cases hapi : api callIdx with
  | error e =>
    rw [genLoop_succ_apiRaise api tm ta fuel callIdx msgs last e hapi]
    rfl
  | ok r =>
    by_cases hs : r.stop_reason = "tool_use"
    · cases tm with
      | none =>
        cases hb : r.content.head? with
        | none =>
          simp only [genLoop, hapi, hb]
          rw [if_neg (by simp [hs])]
          rfl
        | some b =>
          rw [genLoop_succ_noTm api ta fuel callIdx msgs last r b hapi hs hb]
          rfl
      | some exec =>
        cases hrt : runTools exec r.content with
        | ok p =>
          obtain ⟨trs, invs⟩ := p
          rw [genLoop_succ_tools_ok api exec ta fuel callIdx msgs last r trs invs hapi hs hrt]
          rfl
        | error p =>
          obtain ⟨e, invs⟩ := p
          cases hb : r.content.head? with
          | none =>
            simp only [genLoop, hapi, hrt, hb]
            rw [if_neg (by simp [hs])]
            rfl
          | some b0 =>
            rw [genLoop_succ_tools_err api exec ta fuel callIdx msgs last r b0 e invs
              hapi hs hrt hb]
            rfl
    · cases hb : r.content.head? with
      | none =>
        simp only [genLoop, hapi, hb]
        rw [if_pos hs]
        rfl
      | some b =>
        rw [genLoop_succ_direct api tm ta fuel callIdx msgs last r b hapi hs hb]
        rfl

theorem genLoop_calls_length_le (api : Nat → Except String ModelResponse)
    (tm : Option ToolExec) (ta : Bool) :
    ∀ fuel callIdx msgs last,
      (genLoop api tm ta fuel callIdx msgs last).calls.length ≤ fuel + 1 := by
  intro fuel
  induction fuel with
  | zero =>
    intro callIdx msgs last
    cases last with
    | none => simp [genLoop]
    | some r =>
      by_cases hs : r.stop_reason = "tool_use"
      · cases hapi : api callIdx with
        | error e =>
          rw [genLoop_zero_forcedRaise api tm ta callIdx msgs r e hs hapi]
          simp
        | ok fr =>
          cases hb : fr.content.head? with
          | none =>
            simp only [genLoop, hapi, hb, if_pos hs]
            simp
          | some b =>
            rw [genLoop_zero_forcedOk api tm ta callIdx msgs r fr b hs hapi hb]
            simp
      · simp only [genLoop, if_neg hs]
        cases r.content.head? <;> simp
  | succ n ih =>
    intro callIdx msgs last
    cases hapi : api callIdx with
    | error e =>
      rw [genLoop_succ_apiRaise api tm ta n callIdx msgs last e hapi]
      simp
    | ok r =>
      by_cases hs : r.stop_reason = "tool_use"
      · cases tm with
        | none =>
          cases hb : r.content.head? with
          | none =>
            simp only [genLoop, hapi, hb]
            rw [if_neg (by simp [hs])]
            simp
          | some b =>
            rw [genLoop_succ_noTm api ta n callIdx msgs last r b hapi hs hb]
            simp
        | some exec =>
          cases hrt : runTools exec r.content with
          | ok p =>
            obtain ⟨trs, invs⟩ := p
            rw [genLoop_succ_tools_ok api exec ta n callIdx msgs last r trs invs hapi hs hrt]
            simp only [consCall, List.length_cons]
            exact Nat.succ_le_succ (ih _ _ _)
          | error p =>
            obtain ⟨e, invs⟩ := p
            cases hb : r.content.head? with
            | none =>
              simp only [genLoop, hapi, hrt, hb]
              rw [if_neg (by simp [hs])]
              simp
            | some b0 =>
              rw [genLoop_succ_tools_err api exec ta n callIdx msgs last r b0 e invs
                hapi hs hrt hb]
              simp only [consCall, List.length_cons]
              exact Nat.succ_le_succ (ih _ _ _)
      · cases hb : r.content.head? with
        | none =>
          simp only [genLoop, hapi, hb]
          rw [if_pos hs]
          simp
        | some b =>
          rw [genLoop_succ_direct api tm ta n callIdx msgs last r b hapi hs hb]
          simp

theorem genLoop_rounds_ge (api : Nat → Except String ModelResponse)
    (tm : Option ToolExec) (ta : Bool) :
    ∀ fuel callIdx msgs last,
      callIdx ≤ (genLoop api tm ta fuel callIdx msgs last).rounds := by
  intro fuel
  induction fuel with
  | zero =>
    intro callIdx msgs last
    cases last with
    | none => simp [genLoop]
    | some r =>
      by_cases hs : r.stop_reason = "tool_use"
      · cases hapi : api callIdx with
        | error e =>
          rw [genLoop_zero_forcedRaise api tm ta callIdx msgs r e hs hapi]
        | ok fr =>
          cases hb : fr.content.head? with
          | none =>
            simp only [genLoop, hapi, hb, if_pos hs]
            exact Nat.le_refl _
          | some b =>
            rw [genLoop_zero_forcedOk api tm ta callIdx msgs r fr b hs hapi hb]
      · simp only [genLoop, if_neg hs]
        cases r.content.head? <;> simp
  | succ n ih =>
    intro callIdx msgs last
    cases hapi : api callIdx with
    | error e =>
      rw [genLoop_succ_apiRaise api tm ta n callIdx msgs last e hapi]
    | ok r =>
      by_cases hs : r.stop_reason = "tool_use"
      · cases tm with
        | none =>
          cases hb : r.content.head? with
          | none =>
            simp only [genLoop, hapi, hb]
            rw [if_neg (by simp [hs])]
          | some b =>
            rw [genLoop_succ_noTm api ta n callIdx msgs last r b hapi hs hb]
        | some exec =>
          cases hrt : runTools exec r.content with
          | ok p =>
            obtain ⟨trs, invs⟩ := p
            rw [genLoop_succ_tools_ok api exec ta n callIdx msgs last r trs invs hapi hs hrt]
            exact Nat.le_of_succ_le (ih (callIdx + 1) _ _)
          | error p =>
            obtain ⟨e, invs⟩ := p
            cases hb : r.content.head? with
            | none =>
              simp only [genLoop, hapi, hrt, hb]
              rw [if_neg (by simp [hs])]
            | some b0 =>
              rw [genLoop_succ_tools_err api exec ta n callIdx msgs last r b0 e invs
                hapi hs hrt hb]
              exact Nat.le_of_succ_le (ih (callIdx + 1) _ _)
      · cases hb : r.content.head? with
        | none =>
          simp only [genLoop, hapi, hb]
          rw [if_pos hs]
        | some b =>
          rw [genLoop_succ_direct api tm ta n callIdx msgs last r b hapi hs hb]

theorem genLoop_exit_reachable (api : Nat → Except String ModelResponse)
    (tm : Option ToolExec) (ta : Bool) :
    ∀ fuel callIdx msgs last,
      (fuel = 0 → ∃ r, last = some r ∧ r.stop_reason = "tool_use") →
      (genLoop api tm ta fuel callIdx msgs last).exit ≠ .fallback ∧
        (genLoop api tm ta fuel callIdx msgs last).exit ≠ .noResponse := by
  intro fuel
  induction fuel with
  | zero =>
    intro callIdx msgs last hinv
    obtain ⟨r, hlast, hs⟩ := hinv rfl
    subst hlast
    cases hapi : api callIdx with
    | error e =>
      rw [genLoop_zero_forcedRaise api tm ta callIdx msgs r e hs hapi]
      exact ⟨by simp, by simp⟩
    | ok fr =>
      cases hb : fr.content.head? with
      | none =>
        simp only [genLoop, hapi, hb, if_pos hs]
        exact ⟨by simp, by simp⟩
      | some b =>
        rw [genLoop_zero_forcedOk api tm ta callIdx msgs r fr b hs hapi hb]
        exact ⟨by simp, by simp⟩
  | succ n ih =>
    intro callIdx msgs last _
    cases hapi : api callIdx with
    | error e =>
      rw [genLoop_succ_apiRaise api tm ta n callIdx msgs last e hapi]
      exact ⟨by simp, by simp⟩
    | ok r =>
      by_cases hs : r.stop_reason = "tool_use"
      · cases tm with
        | none =>
          cases hb : r.content.head? with
          | none =>
            simp only [genLoop, hapi, hb]
            rw [if_neg (by simp [hs])]
            exact ⟨by simp, by simp⟩
          | some b =>
            rw [genLoop_succ_noTm api ta n callIdx msgs last r b hapi hs hb]
            exact ⟨by simp, by simp⟩
        | some exec =>
          cases hrt : runTools exec r.content with
          | ok p =>
            obtain ⟨trs, invs⟩ := p
            rw [genLoop_succ_tools_ok api exec ta n callIdx msgs last r trs invs hapi hs hrt]
            simpa [consCall] using ih (callIdx + 1) _ (some r) (fun _ => ⟨r, rfl, hs⟩)
          | error p =>
            obtain ⟨e, invs⟩ := p
            cases hb : r.content.head? with
            | none =>
              simp only [genLoop, hapi, hrt, hb]
              rw [if_neg (by simp [hs])]
              exact ⟨by simp, by simp⟩
            | some b0 =>
              rw [genLoop_succ_tools_err api exec ta n callIdx msgs last r b0 e invs
                hapi hs hrt hb]
              simpa [consCall] using ih (callIdx + 1) _ (some r) (fun _ => ⟨r, rfl, hs⟩)
      · cases hb : r.content.head? with
        | none =>
          simp only [genLoop, hapi, hb]
          rw [if_pos hs]
          exact ⟨by simp, by simp⟩
        | some b =>
          rw [genLoop_succ_direct api tm ta n callIdx msgs last r b hapi hs hb]
          exact ⟨by simp, by simp⟩

theorem genLoop_rounds_le (api : Nat → Except String ModelResponse)
    (tm : Option ToolExec) (ta : Bool) :
    ∀ fuel callIdx msgs last,
      (genLoop api tm ta fuel callIdx msgs last).rounds ≤ callIdx + fuel := by
  intro fuel
  induction fuel with
  | zero =>
    intro callIdx msgs last
    cases last with
    | none => simp [genLoop]
    | some r =>
      by_cases hs : r.stop_reason = "tool_use"
      · cases hapi : api callIdx with
        | error e =>
          rw [genLoop_zero_forcedRaise api tm ta callIdx msgs r e hs hapi]
          simp
        | ok fr =>
          cases hb : fr.content.head? with
          | none =>
            simp only [genLoop, hapi, hb, if_pos hs]
            simp
          | some b =>
            rw [genLoop_zero_forcedOk api tm ta callIdx msgs r fr b hs hapi hb]
            simp
      · simp only [genLoop, if_neg hs]
        cases r.content.head? <;> simp
  | succ n ih =>
    intro callIdx msgs last
    cases hapi : api callIdx with
    | error e =>
      rw [genLoop_succ_apiRaise api tm ta n callIdx msgs last e hapi]
      simp
    | ok r =>
      by_cases hs : r.stop_reason = "tool_use"
      · cases tm with
        | none =>
          cases hb : r.content.head? with
          | none =>
            simp only [genLoop, hapi, hb]
            rw [if_neg (by simp [hs])]
            simp
          | some b =>
            rw [genLoop_succ_noTm api ta n callIdx msgs last r b hapi hs hb]
            simp
        | some exec =>
          cases hrt : runTools exec r.content with
          | ok p =>
            obtain ⟨trs, invs⟩ := p
            rw [genLoop_succ_tools_ok api exec ta n callIdx msgs last r trs invs hapi hs hrt]
            have := ih (callIdx + 1) (if trs.isEmpty then msgs ++ [assistantMsg r.content]
              else msgs ++ [assistantMsg r.content, userResults trs]) (some r)
            simpa [consCall, Nat.add_right_comm callIdx 1 n] using this
          | error p =>
            obtain ⟨e, invs⟩ := p
            cases hb : r.content.head? with
            | none =>
              simp only [genLoop, hapi, hrt, hb]
              rw [if_neg (by simp [hs])]
              simp
            | some b0 =>
              rw [genLoop_succ_tools_err api exec ta n callIdx msgs last r b0 e invs
                hapi hs hrt hb]
              have := ih (callIdx + 1) (msgs ++ [assistantMsg r.content,
                assistantMsg r.content, userResults [ToolResultBlock.mk "tool_result" b0.id
                  ("Tool execution failed: " ++ e)]]) (some r)
              simpa [consCall, Nat.add_right_comm callIdx 1 n] using this
      · cases hb : r.content.head? with
        | none =>
          simp only [genLoop, hapi, hb]
          rw [if_pos hs]
          simp
        | some b =>
          rw [genLoop_succ_direct api tm ta n callIdx msgs last r b hapi hs hb]
          simp

theorem genLoop_one_round_exec (api : Nat → Except String ModelResponse)
    (exec : ToolExec) (ta : Bool) (fuel callIdx : Nat) (msgs : List Message)
    (last : Option ModelResponse) (r : ModelResponse)
    (h : api callIdx = .ok r) (hs : r.stop_reason = "tool_use")
    (hc : countToolUse r.content = 1) :
    ∃ msgs2 invs, invs.length = 1 ∧
      genLoop api (some exec) ta (fuel + 1) callIdx msgs last =
        consCall msgs ta invs
          (genLoop api (some exec) ta fuel (callIdx + 1) msgs2 (some r)) := by
  cases hrt : runTools exec r.content with
  | ok p =>
    obtain ⟨trs, invs⟩ := p
    refine ⟨_, invs, ?_,
      genLoop_succ_tools_ok api exec ta fuel callIdx msgs last r trs invs h hs hrt⟩
    rw [(runTools_ok_lengths exec r.content trs invs hrt).2, hc]
  | error p =>
    obtain ⟨e, invs⟩ := p
    obtain ⟨b0, hb⟩ := countToolUse_pos_head r.content (by rw [hc]; exact one_ne_zero)
    exact ⟨_, invs, runTools_error_single exec r.content hc e invs hrt,
      genLoop_succ_tools_err api exec ta fuel callIdx msgs last r b0 e invs h hs hrt hb⟩

/-! ## Claim theorems -/

/-- C3: for every sequence of model responses (and any tool manager, tool
catalog and query), `generate_response` halts after a bounded number of
model round-trips: never more than `MAX_ROUNDS + 1 = 3` model calls in
total, and never more than `MAX_ROUNDS = 2` tool-bearing rounds. -/
theorem claim_generate_response_bounded (api : Nat → Except String ModelResponse)
    (tm : Option ToolExec) (ta : Bool) (q : String) :
    (generate_response api tm ta q).calls.length ≤ MAX_ROUNDS + 1 ∧
      (generate_response api tm ta q).rounds ≤ MAX_ROUNDS := by
  constructor
  · exact genLoop_calls_length_le api tm ta MAX_ROUNDS 0 [userText q] none
  · exact genLoop_rounds_le api tm ta MAX_ROUNDS 0 [userText q] none

/-- C10: the trailing fallback return of `generate_response` (the line
reached when the loop exhausts its rounds with a last response that does not
request tools) is unreachable: every run exits through a direct answer, the
missing-tool-manager return, a propagated API error, the forced synthesis
(successful or raising), or an IndexError on empty content — when the loop
exhausts its rounds, the last response necessarily has
`stop_reason = "tool_use"` and the forced-synthesis branch is taken. -/
theorem claim_fallback_unreachable (api : Nat → Except String ModelResponse)
    (tm : Option ToolExec) (ta : Bool) (q : String) :
    (generate_response api tm ta q).exit = ExitKind.directAnswer ∨
      (generate_response api tm ta q).exit = ExitKind.noToolManager ∨
      (generate_response api tm ta q).exit = ExitKind.apiRaise ∨
      (generate_response api tm ta q).exit = ExitKind.forcedOk ∨
      (generate_response api tm ta q).exit = ExitKind.forcedRaise ∨
      (generate_response api tm ta q).exit = ExitKind.indexErr := by
  have h : (generate_response api tm ta q).exit ≠ .fallback ∧
      (generate_response api tm ta q).exit ≠ .noResponse :=
    genLoop_exit_reachable api tm ta MAX_ROUNDS 0 [userText q] none
      (by intro h0; simp [MAX_ROUNDS] at h0)
  cases hx : (generate_response api tm ta q).exit with
  | directAnswer => exact Or.inl rfl
  | noToolManager => exact Or.inr (Or.inl rfl)
  | apiRaise => exact Or.inr (Or.inr (Or.inl rfl))
  | forcedOk => exact Or.inr (Or.inr (Or.inr (Or.inl rfl)))
  | forcedRaise => exact Or.inr (Or.inr (Or.inr (Or.inr (Or.inl rfl))))
  | indexErr => exact Or.inr (Or.inr (Or.inr (Or.inr (Or.inr rfl))))
  | fallback => exact absurd hx h.1
  | noResponse => exact absurd hx h.2

/-- C8: if the first response signals tool use but no tool manager was
supplied, `generate_response` makes exactly one model call, executes no
tool, and returns the first content block's text as-is without looping. -/
theorem claim_no_tool_manager (api : Nat → Except String ModelResponse)
    (ta : Bool) (q : String) (r : ModelResponse) (b : ContentBlock)
    (h : api 0 = .ok r) (hs : r.stop_reason = "tool_use")
    (hb : r.content.head? = some b) :
    generate_response api none ta q =
      { calls := [{ messages := [userText q], toolsEnabled := ta }],
        toolExecs := [], rounds := 0, exit := .noToolManager,
        result := .ok b.text } :=
  genLoop_succ_noTm api ta 1 0 [userText q] none r b h hs hb

/-- Witness for C8 at a concrete tool-requesting response. -/
theorem claim_no_tool_manager_witness :
    generate_response (wApi [.ok wToolResp]) none true "What is MCP?" =
      { calls := [{ messages := [userText "What is MCP?"], toolsEnabled := true }],
        toolExecs := [], rounds := 0, exit := .noToolManager, result := .ok "" } := by
  have h := claim_no_tool_manager (wApi [.ok wToolResp]) true "What is MCP?"
    wToolResp wToolBlock rfl rfl rfl
  simpa [wToolBlock] using h

/-- C4: a query the model answers directly costs exactly one model call and
no tool execution; a single-round tool answer (first response requests at
least one tool, all executions succeed, second response answers directly)
costs exactly two model calls, and the second call submits exactly three
messages: the user query, the assistant tool-request appended verbatim, and
one user message bundling one tool-result block per invocation, in
invocation order. -/
theorem claim_direct_and_single_round (api : Nat → Except String ModelResponse)
    (exec : ToolExec) (ta : Bool) (q : String) :
    (∀ r0 b, api 0 = .ok r0 → r0.stop_reason ≠ "tool_use" →
      r0.content.head? = some b →
      generate_response api (some exec) ta q =
        { calls := [{ messages := [userText q], toolsEnabled := ta }],
          toolExecs := [], rounds := 0, exit := .directAnswer,
          result := .ok b.text }) ∧
    (∀ r0 r1 b1, api 0 = .ok r0 → r0.stop_reason = "tool_use" →
      AllToolsOk exec r0.content → countToolUse r0.content ≠ 0 →
      api 1 = .ok r1 → r1.stop_reason ≠ "tool_use" → r1.content.head? = some b1 →
      (generate_response api (some exec) ta q).calls.map CallRecord.messages =
          [[userText q],
            [userText q, assistantMsg r0.content,
              userResults (successResults exec r0.content)]] ∧
        (generate_response api (some exec) ta q).toolExecs = invocationsOf r0.content ∧
        (successResults exec r0.content).length = countToolUse r0.content ∧
        (generate_response api (some exec) ta q).rounds = 1 ∧
        (generate_response api (some exec) ta q).result = .ok b1.text) := by
  constructor
  · intro r0 b h hs hb
    exact genLoop_succ_direct api (some exec) ta 1 0 [userText q] none r0 b h hs hb
  · intro r0 r1 b1 h0 hs0 hall hcnt h1 hs1 hb1
    have hrt : runTools exec r0.content =
        .ok (successResults exec r0.content, invocationsOf r0.content) :=
      runTools_all_ok exec r0.content hall
    have hlen := successResults_length exec r0.content hall
    have hne : ¬((successResults exec r0.content).isEmpty = true) := by
      intro hemp
      rw [List.isEmpty_iff] at hemp
      rw [hemp] at hlen
      exact hcnt hlen.symm
    have key : generate_response api (some exec) ta q =
        consCall [userText q] ta (invocationsOf r0.content)
          (genLoop api (some exec) ta 1 1
            ([userText q] ++ [assistantMsg r0.content,
              userResults (successResults exec r0.content)]) (some r0)) := by
      have h2 := genLoop_succ_tools_ok api exec ta 1 0 [userText q] none r0
        (successResults exec r0.content) (invocationsOf r0.content) h0 hs0 hrt
      rw [if_neg hne] at h2
      exact h2
    have h3 : genLoop api (some exec) ta 1 1
        ([userText q] ++ [assistantMsg r0.content,
          userResults (successResults exec r0.content)]) (some r0) =
        { calls := [{ messages := [userText q] ++ [assistantMsg r0.content,
            userResults (successResults exec r0.content)], toolsEnabled := ta }],
          toolExecs := [], rounds := 1, exit := .directAnswer,
          result := .ok b1.text } :=
      genLoop_succ_direct api (some exec) ta 0 1
        ([userText q] ++ [assistantMsg r0.content,
          userResults (successResults exec r0.content)]) (some r0) r1 b1 h1 hs1 hb1
    rw [key, h3]
    refine ⟨?_, ?_, hlen, ?_, ?_⟩ <;> simp [consCall]

/-- C2: when executing a round's requested tool invocations raises, the
error is not propagated out of the run: the round is consumed, the loop
continues and a second model call is made, and the history submitted to
that next call carries a synthetic tool-result block whose text is
`"Tool execution failed: <message>"` — in particular a tool-result block
whose text contains the failure cause. (The embedding also records that the
assistant tool-request message is appended twice on this path, exactly as
the source's exception handler does.) -/
theorem claim_tool_failure_round (api : Nat → Except String ModelResponse)
    (exec : ToolExec) (ta : Bool) (q : String) (r0 : ModelResponse)
    (b0 : ContentBlock) (e : String) (invs : List ToolInv)
    (h0 : api 0 = .ok r0) (hs0 : r0.stop_reason = "tool_use")
    (hrt : runTools exec r0.content = .error (e, invs))
    (hb : r0.content.head? = some b0) :
    2 ≤ (generate_response api (some exec) ta q).calls.length ∧
      1 ≤ (generate_response api (some exec) ta q).rounds ∧
      (generate_response api (some exec) ta q).calls[1]? =
        some (CallRecord.mk (failRoundHistory q r0.content b0 e) ta) ∧
      (∃ msgs, (generate_response api (some exec) ta q).calls[1]? =
          some (CallRecord.mk msgs ta) ∧
        ∃ m ∈ msgs, m.role = "user" ∧ ∃ rs, m.content = .results rs ∧
          ∃ rb ∈ rs, ∃ p, rb.content = p ++ e) := by
  have key : generate_response api (some exec) ta q =
      consCall [userText q] ta invs
        (genLoop api (some exec) ta 1 1 (failRoundHistory q r0.content b0 e)
          (some r0)) := by
    have h2 := genLoop_succ_tools_err api exec ta 1 0 [userText q] none r0 b0 e invs
      h0 hs0 hrt hb
    simpa [failRoundHistory, toolFailBlock] using h2
  have hhead : (genLoop api (some exec) ta 1 1
      (failRoundHistory q r0.content b0 e) (some r0)).calls.head? =
      some (CallRecord.mk (failRoundHistory q r0.content b0 e) ta) :=
    genLoop_succ_calls_head api (some exec) ta 0 1 _ (some r0)
  have hrge : 1 ≤ (genLoop api (some exec) ta 1 1
      (failRoundHistory q r0.content b0 e) (some r0)).rounds :=
    genLoop_rounds_ge api (some exec) ta 1 1 _ (some r0)
  cases hcalls : (genLoop api (some exec) ta 1 1
      (failRoundHistory q r0.content b0 e) (some r0)).calls with
  | nil =>
    rw [hcalls] at hhead
    simp at hhead
  | cons c tl =>
    rw [hcalls] at hhead
    simp only [List.head?_cons, Option.some.injEq] at hhead
    refine ⟨?_, ?_, ?_, ?_⟩
    · rw [key]
      simp [consCall, hcalls]
    · rw [key]
      simpa [consCall] using hrge
    · rw [key]
      simp [consCall, hcalls, hhead]
    · refine ⟨failRoundHistory q r0.content b0 e, ?_, ?_⟩
      · rw [key]
        simp [consCall, hcalls, hhead]
      · refine ⟨userResults [toolFailBlock b0 e], by simp [failRoundHistory], rfl,
          [toolFailBlock b0 e], rfl, toolFailBlock b0 e, by simp,
          "Tool execution failed: ", rfl⟩

/-- C1: when the model requests tool use in each of the two tool-bearing
rounds (each round carrying one tool invocation), the run executes exactly
two tool invocations, makes exactly three model calls of which the third
has tools withheld, consumes both rounds, and the third, tools-disabled
call decides the outcome: its text is returned on success, and if it
raises, the whole request fails with the descriptive
`"Error synthesizing final response: ..."` error and no further call is
made. -/
theorem claim_two_tool_rounds (api : Nat → Except String ModelResponse)
    (exec : ToolExec) (ta : Bool) (q : String) (r0 r1 : ModelResponse)
    (h0 : api 0 = .ok r0) (hs0 : r0.stop_reason = "tool_use")
    (hc0 : countToolUse r0.content = 1)
    (h1 : api 1 = .ok r1) (hs1 : r1.stop_reason = "tool_use")
    (hc1 : countToolUse r1.content = 1) :
    (generate_response api (some exec) ta q).toolExecs.length = 2 ∧
      (generate_response api (some exec) ta q).calls.map CallRecord.toolsEnabled =
        [ta, ta, false] ∧
      (generate_response api (some exec) ta q).rounds = 2 ∧
      (∀ e, api 2 = .error e →
        (generate_response api (some exec) ta q).result =
          .error ("Error synthesizing final response: " ++ e)) ∧
      (∀ fr b, api 2 = .ok fr → fr.content.head? = some b →
        (generate_response api (some exec) ta q).result = .ok b.text) := by
  obtain ⟨m2, invs1, hl1, hT⟩ :=
    genLoop_one_round_exec api exec ta 1 0 [userText q] none r0 h0 hs0 hc0
  obtain ⟨m3, invs2, hl2, hT2⟩ :=
    genLoop_one_round_exec api exec ta 0 1 m2 (some r0) r1 h1 hs1 hc1
  have hT' : generate_response api (some exec) ta q =
      consCall [userText q] ta invs1
        (genLoop api (some exec) ta 1 1 m2 (some r0)) := hT
  have hT2' : genLoop api (some exec) ta 1 1 m2 (some r0) =
      consCall m2 ta invs2 (genLoop api (some exec) ta 0 2 m3 (some r1)) := hT2
  have hshape := genLoop_zero_shape api (some exec) ta 2 m3 r1 hs1
  refine ⟨?_, ?_, ?_, ?_, ?_⟩
  · rw [hT', hT2']
    simp [consCall, hl1, hl2, hshape.2.1]
  · rw [hT', hT2']
    simp [consCall, hshape.1]
  · rw [hT', hT2']
    simpa [consCall] using hshape.2.2
  · intro e he
    rw [hT', hT2']
    have hz := genLoop_zero_forcedRaise api (some exec) ta 2 m3 r1 e hs1 he
    simp [consCall, hz]
  · intro fr b hfr hbc
    rw [hT', hT2']
    have hz := genLoop_zero_forcedOk api (some exec) ta 2 m3 r1 fr b hs1 hfr hbc
    simp [consCall, hz]

/-- Witness for C1 at a concrete two-round tool-requesting run. -/
theorem claim_two_tool_rounds_witness :
    (generate_response (wApi [.ok wToolResp, .ok wToolResp, .ok wTextResp])
        (some wExecOk) true "q").toolExecs.length = 2 ∧
      (generate_response (wApi [.ok wToolResp, .ok wToolResp, .ok wTextResp])
        (some wExecOk) true "q").calls.map CallRecord.toolsEnabled =
          [true, true, false] ∧
      (generate_response (wApi [.ok wToolResp, .ok wToolResp, .ok wTextResp])
        (some wExecOk) true "q").rounds = 2 ∧
      (generate_response (wApi [.ok wToolResp, .ok wToolResp, .ok wTextResp])
        (some wExecOk) true "q").result = .ok "final answer" := by
  have h := claim_two_tool_rounds (wApi [.ok wToolResp, .ok wToolResp, .ok wTextResp])
    wExecOk true "q" wToolResp wToolResp rfl rfl (by decide) rfl rfl (by decide)
  exact ⟨h.1, h.2.1, h.2.2.1,
    by simpa [wTextBlock] using h.2.2.2.2 wTextResp wTextBlock rfl rfl⟩

/-- Witness for C2 at a concrete run whose single tool invocation raises. -/
theorem claim_tool_failure_round_witness :
    2 ≤ (generate_response (wApi [.ok wToolResp, .ok wTextResp])
        (some wExecFail) true "q").calls.length ∧
      1 ≤ (generate_response (wApi [.ok wToolResp, .ok wTextResp])
        (some wExecFail) true "q").rounds ∧
      (generate_response (wApi [.ok wToolResp, .ok wTextResp])
          (some wExecFail) true "q").calls[1]? =
        some (CallRecord.mk
          (failRoundHistory "q" [wToolBlock] wToolBlock "Course not found") true) := by
  have h := claim_tool_failure_round (wApi [.ok wToolResp, .ok wTextResp]) wExecFail
    true "q" wToolResp wToolBlock "Course not found"
    [("search_course_content", [("query", "MCP")])] rfl rfl rfl rfl
  exact ⟨h.1, h.2.1, by simpa [wToolResp] using h.2.2.1⟩

/-- Witness for C4: a concrete direct answer (one call, no tools) and a
concrete single-round tool answer (two calls, three-message history). -/
theorem claim_direct_and_single_round_witness :
    generate_response (wApi [.ok wTextResp]) (some wExecOk) true "q" =
      { calls := [{ messages := [userText "q"], toolsEnabled := true }],
        toolExecs := [], rounds := 0, exit := .directAnswer,
        result := .ok "final answer" } ∧
      (generate_response (wApi [.ok wToolResp, .ok wTextResp])
          (some wExecOk) true "q2").calls.map CallRecord.messages =
        [[userText "q2"],
          [userText "q2", assistantMsg [wToolBlock],
            userResults [ToolResultBlock.mk "tool_result" "tool-1" "Tool result"]]] ∧
      (generate_response (wApi [.ok wToolResp, .ok wTextResp])
        (some wExecOk) true "q2").result = .ok "final answer" := by
  have hA := (claim_direct_and_single_round (wApi [.ok wTextResp]) wExecOk true "q").1
    wTextResp wTextBlock rfl (by decide) rfl
  have hB := (claim_direct_and_single_round (wApi [.ok wToolResp, .ok wTextResp])
      wExecOk true "q2").2
    wToolResp wTextResp wTextBlock rfl rfl
    (fun b _ _ => ⟨"Tool result", rfl⟩) (by decide) rfl (by decide) rfl
  refine ⟨by simpa [wTextBlock] using hA, ?_, ?_⟩
  · have := hB.1
    simpa [wToolResp, successResults, wToolBlock, wExecOk] using this
  · have := hB.2.2.2.2
    simpa [wTextBlock] using this

/-! ## Search-tool claims -/

/-- C9: `CourseSearchTool.execute` modifies `last_sources` only on a
non-empty, non-error result: a truthy error or an empty result leaves the
previous value untouched, and a non-empty error-free result assigns exactly
the formatted rows' citations. -/
theorem claim_last_sources_frame (st : StoreOps) (q : String) (cn : Option String)
    (ln : Option Int) (prev : List Source) :
    ((∃ e, (st.search q cn ln).error = some e ∧ e ≠ "") →
      (CourseSearchTool.execute st q cn ln prev).2 = prev) ∧
      ((st.search q cn ln).error = none → (st.search q cn ln).documents = [] →
        (CourseSearchTool.execute st q cn ln prev).2 = prev) ∧
      ((st.search q cn ln).error = none → (st.search q cn ln).documents ≠ [] →
        (CourseSearchTool.execute st q cn ln prev).2 =
          (CourseSearchTool.format_results st (st.search q cn ln)).2) := by
  refine ⟨?_, ?_, ?_⟩
  · rintro ⟨e, he, hne⟩
    have hemp : e.isEmpty = false := by
      rw [Bool.eq_false_iff]
      exact fun h => hne ((String.isEmpty_iff e).mp h)
    simp [CourseSearchTool.execute, pyTruthyStr, he, hemp]
  · intro he hd
    simp [CourseSearchTool.execute, pyTruthyStr, SearchResults.is_empty, he, hd]
  · intro he hd
    have hemp : (st.search q cn ln).documents.isEmpty = false := by
      rw [Bool.eq_false_iff]
      exact fun h => hd (List.isEmpty_iff.mp h)
    simp [CourseSearchTool.execute, pyTruthyStr, SearchResults.is_empty, he, hemp]

/-- Witness for C9: an error result and an empty result keep the previous
sources; a one-hit result overwrites them with that row's citation. -/
theorem claim_last_sources_frame_witness :
    (CourseSearchTool.execute wStoreErr "q" none none [wSrc]).2 = [wSrc] ∧
      (CourseSearchTool.execute wStoreEmpty "q" none none [wSrc]).2 = [wSrc] ∧
      (CourseSearchTool.execute wStoreHit "q" none none []).2 = [wSrc] := by
  refine ⟨(claim_last_sources_frame wStoreErr "q" none none [wSrc]).1
      ⟨"No course found matching X", rfl, by decide⟩,
    (claim_last_sources_frame wStoreEmpty "q" none none [wSrc]).2.1 rfl rfl, ?_⟩
  have h := (claim_last_sources_frame wStoreHit "q" none none []).2.2 rfl (by decide)
  rw [h]
  rfl

/-- C7 counterexample: `lesson_number = 0` is a supplied lesson filter, yet
the empty-result message is the bare `"No relevant content found."`: it does
not contain the word `"lesson"` at all, and it is identical to the message
produced when no lesson filter is supplied. -/
theorem claim_empty_message_lesson_zero_cex :
    (CourseSearchTool.execute wStoreEmpty "q" none (some 0) []).1 =
        "No relevant content found." ∧
      (CourseSearchTool.execute wStoreEmpty "q" none (some 0) []).1 =
        (CourseSearchTool.execute wStoreEmpty "q" none none []).1 ∧
      strHasSub (CourseSearchTool.execute wStoreEmpty "q" none (some 0) []).1
        "lesson" = false := by
  refine ⟨rfl, rfl, by decide⟩

/-- C7 (amended): whenever a content search returns an empty, non-error
result, the message is `"No relevant content found"` followed by the
rendered filter descriptions, and it names the course filter whenever a
truthy (non-empty) course name was supplied and the lesson filter whenever
a truthy (non-zero) lesson number was supplied. -/
theorem claim_empty_message_filters (st : StoreOps) (q : String)
    (cn : Option String) (ln : Option Int) (prev : List Source)
    (he : (st.search q cn ln).error = none)
    (hd : (st.search q cn ln).documents = []) :
    (CourseSearchTool.execute st q cn ln prev).1 =
        "No relevant content found" ++ CourseSearchTool.course_filter_info cn
          ++ CourseSearchTool.lesson_filter_info ln ++ "." ∧
      (∀ c, cn = some c → c ≠ "" →
        ∃ p s, (CourseSearchTool.execute st q cn ln prev).1 =
          p ++ (" in course \x27" ++ c ++ "\x27") ++ s) ∧
      (∀ n, ln = some n → n ≠ 0 →
        ∃ p s, (CourseSearchTool.execute st q cn ln prev).1 =
          p ++ (" in lesson " ++ toString n) ++ s) := by
  have hout : (CourseSearchTool.execute st q cn ln prev).1 =
      "No relevant content found" ++ CourseSearchTool.course_filter_info cn
        ++ CourseSearchTool.lesson_filter_info ln ++ "." := by
    simp [CourseSearchTool.execute, pyTruthyStr, SearchResults.is_empty, he, hd,
      String.append_assoc]
  refine ⟨hout, ?_, ?_⟩
  · intro c hc hcne
    have hemp : c.isEmpty = false := by
      rw [Bool.eq_false_iff]
      exact fun h => hcne ((String.isEmpty_iff c).mp h)
    refine ⟨"No relevant content found",
      CourseSearchTool.lesson_filter_info ln ++ ".", ?_⟩
    rw [hout]
    simp [CourseSearchTool.course_filter_info, pyTruthyStr, hc, hemp,
      String.append_assoc]
  · intro n hn hnne
    refine ⟨"No relevant content found" ++ CourseSearchTool.course_filter_info cn,
      ".", ?_⟩
    rw [hout]
    simp [CourseSearchTool.lesson_filter_info, pyTruthyInt, hn, hnne,
      String.append_assoc]

/-- Witness for C7 (amended) at a concrete empty search with both filters
supplied and truthy. -/
theorem claim_empty_message_filters_witness :
    (CourseSearchTool.execute wStoreEmpty "q" (some "MCP") (some 2) []).1 =
        "No relevant content found in course \x27MCP\x27 in lesson 2." ∧
      strHasSub (CourseSearchTool.execute wStoreEmpty "q" (some "MCP") (some 2) []).1
        " in lesson 2" = true := by
  have h := claim_empty_message_filters wStoreEmpty "q" (some "MCP") (some 2) []
    rfl rfl
  exact ⟨by simpa using h.1, by decide⟩

/-- C6: `CourseOutlineTool.execute` never raises across the registry
boundary: for every behavior of the catalog lookup and the lesson-list
decoder it returns a string, and any exception of the try-block body is
rendered as the descriptive `"Error retrieving course outline: <message>"`
string instead of being raised. -/
theorem claim_outline_never_raises (st : OutlineStoreOps) (course_name : String) :
    (∃ s, CourseOutlineTool.execute st course_name = .ok s) ∧
      (∀ title e, st.resolve_course_name course_name = some title →
        CourseOutlineTool.outline_body st course_name title = .error e →
        CourseOutlineTool.execute st course_name =
          .ok ("Error retrieving course outline: " ++ e)) := by
  constructor
  · cases hres : st.resolve_course_name course_name with
    | none =>
      exact ⟨"No course found matching \x27" ++ course_name
        ++ "\x27. Please try a different course name or check available courses.",
        by simp [CourseOutlineTool.execute, hres]⟩
    | some title =>
      cases hb : CourseOutlineTool.outline_body st course_name title with
      | ok s => exact ⟨s, by simp [CourseOutlineTool.execute, hres, hb]⟩
      | error e =>
        exact ⟨"Error retrieving course outline: " ++ e,
          by simp [CourseOutlineTool.execute, hres, hb]⟩
  · intro title e hres hb
    simp [CourseOutlineTool.execute, hres, hb]

/-- Witness for C6 at a store whose catalog lookup raises. -/
theorem claim_outline_never_raises_witness :
    CourseOutlineTool.execute wOutlineRaise "MCP" =
      .ok ("Error retrieving course outline: boom") := by
  exact (claim_outline_never_raises wOutlineRaise "MCP").2 "Course A" "boom" rfl rfl

theorem get_last_sources_all_empty :
    ∀ ts : List MTool, (∀ t ∈ ts, t.noSources) →
      ToolManager.get_last_sources ts = [] := by
  intro ts
  induction ts with
  | nil => intro _; rfl
  | cons t l ih =>
    intro h
    have hl := fun u hu => h u (List.mem_cons_of_mem _ hu)
    rcases h t (List.mem_cons_self _ _) with hnone | hempty
    · simp only [ToolManager.get_last_sources, hnone]
      exact ih hl
    · simp only [ToolManager.get_last_sources, hempty, List.isEmpty_nil, if_true]
      exact ih hl

theorem get_last_sources_first :
    ∀ (ts1 : List MTool) (t : MTool) (ss : List Source) (ts2 : List MTool),
      (∀ u ∈ ts1, u.noSources) → t.last_sources = some ss → ss ≠ [] →
      ToolManager.get_last_sources (ts1 ++ t :: ts2) = ss := by
  intro ts1
  induction ts1 with
  | nil =>
    intro t ss ts2 _ ht hne
    have hemp : ss.isEmpty = false := by
      rw [Bool.eq_false_iff]
      exact fun h => hne (List.isEmpty_iff.mp h)
    simp only [List.nil_append, ToolManager.get_last_sources, ht, hemp]
    rfl
  | cons u us ih =>
    intro t ss ts2 h ht hne
    have hus := fun v hv => h v (List.mem_cons_of_mem _ hv)
    rcases h u (List.mem_cons_self _ _) with hnone | hempty
    · simp only [List.cons_append, ToolManager.get_last_sources, hnone]
      exact ih t ss ts2 hus ht hne
    · simp only [List.cons_append, ToolManager.get_last_sources, hempty,
        List.isEmpty_nil, if_true]
      exact ih t ss ts2 hus ht hne

theorem get_last_sources_after_reset :
    ∀ ts : List MTool,
      ToolManager.get_last_sources (ToolManager.reset_sources ts) = [] := by
  intro ts
  induction ts with
  | nil => rfl
  | cons t l ih =>
    cases ht : t.last_sources with
    | none =>
      simp only [ToolManager.reset_sources, List.map_cons, ht,
        ToolManager.get_last_sources]
      exact ih
    | some ss =>
      simp only [ToolManager.reset_sources, List.map_cons, ht,
        ToolManager.get_last_sources, List.isEmpty_nil, if_true]
      exact ih

/-- C5: `get_last_sources` returns the first non-empty `last_sources` found
across registered tools in registration order — the empty list when every
tool offers none — and after `reset_sources` it returns the empty list. -/
theorem claim_collect_sources (ts : List MTool) :
    ((∀ t ∈ ts, t.noSources) → ToolManager.get_last_sources ts = []) ∧
      (∀ ts1 t ss ts2, ts = ts1 ++ t :: ts2 → (∀ u ∈ ts1, u.noSources) →
        t.last_sources = some ss → ss ≠ [] →
        ToolManager.get_last_sources ts = ss) ∧
      ToolManager.get_last_sources (ToolManager.reset_sources ts) = [] := by
  refine ⟨get_last_sources_all_empty ts, ?_, get_last_sources_after_reset ts⟩
  intro ts1 t ss ts2 hsplit h1 ht hne
  rw [hsplit]
  exact get_last_sources_first ts1 t ss ts2 h1 ht hne

/-- Witness for C5: with an empty-channel tool and an attribute-free tool
registered before a tool holding one citation, that citation is returned;
after a reset everything is empty. -/
theorem claim_collect_sources_witness :
    ToolManager.get_last_sources [wToolA, wToolC, wToolB] = [wSrc] ∧
      ToolManager.get_last_sources [wToolA, wToolC] = [] ∧
      ToolManager.get_last_sources
        (ToolManager.reset_sources [wToolA, wToolC, wToolB]) = [] := by
  refine ⟨(claim_collect_sources [wToolA, wToolC, wToolB]).2.1
      [wToolA, wToolC] wToolB [wSrc] [] rfl ?_ rfl (by decide),
    (claim_collect_sources [wToolA, wToolC]).1 ?_,
    (claim_collect_sources [wToolA, wToolC, wToolB]).2.2⟩
  · intro u hu
    fin_cases hu
    · exact Or.inr rfl
    · exact Or.inl rfl
  · intro u hu
    fin_cases hu
    · exact Or.inr rfl
    · exact Or.inl rfl

/-- Witness for C3 at a concrete run that keeps requesting tools. -/
theorem claim_generate_response_bounded_witness :
    (generate_response (wApi [.ok wToolResp, .ok wToolResp, .ok wToolResp])
        (some wExecOk) true "q").calls.length ≤ MAX_ROUNDS + 1 ∧
      (generate_response (wApi [.ok wToolResp, .ok wToolResp, .ok wToolResp])
        (some wExecOk) true "q").rounds ≤ MAX_ROUNDS :=
  claim_generate_response_bounded (wApi [.ok wToolResp, .ok wToolResp, .ok wToolResp])
    (some wExecOk) true "q"

/-- Witness for C10 at a concrete run that keeps requesting tools. -/
theorem claim_fallback_unreachable_witness :
    (generate_response (wApi [.ok wToolResp, .ok wToolResp, .ok wToolResp])
        (some wExecOk) true "q").exit = ExitKind.directAnswer ∨
      (generate_response (wApi [.ok wToolResp, .ok wToolResp, .ok wToolResp])
        (some wExecOk) true "q").exit = ExitKind.noToolManager ∨
      (generate_response (wApi [.ok wToolResp, .ok wToolResp, .ok wToolResp])
        (some wExecOk) true "q").exit = ExitKind.apiRaise ∨
      (generate_response (wApi [.ok wToolResp, .ok wToolResp, .ok wToolResp])
        (some wExecOk) true "q").exit = ExitKind.forcedOk ∨
      (generate_response (wApi [.ok wToolResp, .ok wToolResp, .ok wToolResp])
        (some wExecOk) true "q").exit = ExitKind.forcedRaise ∨
      (generate_response (wApi [.ok wToolResp, .ok wToolResp, .ok wToolResp])
        (some wExecOk) true "q").exit = ExitKind.indexErr :=
  claim_fallback_unreachable (wApi [.ok wToolResp, .ok wToolResp, .ok wToolResp])
    (some wExecOk) true "q"
